import Mathlib

/-!
# Verification of the codecontext-keygen license subsystem

Shallow embedding of the license activation & validation subsystem:
the `KeygenService` remote-authority client and the `LicenseServiceKeygen`
entitlement manager.  Network outcomes, the wall clock and filesystem-write
success are passed in explicitly, so every operation is a pure function of
its inputs; caught exceptions in the source become result values here.
-/

namespace CodeContextKeygen

/-- Outcome of one `fetch` call, as seen by the client code.
`netThrow m` models the fetch promise rejecting (`m = some s` when the thrown
value is an `Error` with message `s`, `none` for a non-`Error` throw);
`resp status body` models an HTTP response with the given status, where
`body = .error s` models `response.json()` rejecting with an `Error` whose
message is `s` (possible on the 2xx path; the failed-response `text()` read
on the non-2xx path is modelled as never failing). -/
inductive HttpOutcome (β : Type) where
  | netThrow (errMsg : Option String)
  | resp (status : Nat) (body : Except String β)

/-- `KeygenLicense` of KeygenService.ts: the parsed license payload.  The
`metadata` record is represented by the three fields the code reads from it
(`metadata.tier`, `metadata.email`, `metadata.features`); an absent metadata
object is the same as all three absent. -/
structure KeygenLicense where
  id : String
  key : String
  name : Option String
  status : String
  expiry : Option String
  maxActivations : Option Nat
  activations : Nat
  metaTier : Option String
  metaEmail : Option String
  metaFeatures : Option (List String)
deriving DecidableEq

/-- `KeygenActivation` of KeygenService.ts. -/
structure KeygenActivation where
  id : String
  fingerprint : String
  platform : String
  hostname : String
  created : String
deriving DecidableEq

/-- `KeygenValidationResponse` of KeygenService.ts. -/
structure KeygenValidationResponse where
  valid : Bool
  license : Option KeygenLicense
  activations : List KeygenActivation
  message : Option String
  code : Option String
deriving DecidableEq

/-- `KeygenActivationResponse` of KeygenService.ts. -/
structure KeygenActivationResponse where
  success : Bool
  activation : Option KeygenActivation
  message : Option String
  code : Option String
deriving DecidableEq

/-- Parsed body of a 2xx validate-key response: the `meta.valid` flag (absent
when `meta` or `meta.valid` is missing), the license under `data` (already
run through `parseLicenseData`) and the activations under `included`. -/
structure ValidateBody where
  metaValid : Option Bool
  dataLicense : Option KeygenLicense
  includedActivations : List KeygenActivation
deriving DecidableEq

/-- Parsed body of a 2xx activate response: the activation under `data`
(already run through `parseActivationData`). -/
structure ActivateBody where
  dataActivation : Option KeygenActivation
deriving DecidableEq

/-- One outgoing request to the remote authority. -/
inductive NetCall where
  | validateKey (key : String)
  | activateKey (key : String) (fingerprint : String)
deriving DecidableEq

/-- `response.ok` of the fetch API: status in the range 200-299. -/
def httpOk (status : Nat) : Bool := 200 ≤ status && status ≤ 299

/-- Whitespace for JS `String.prototype.trim` (the ASCII members of the
WhiteSpace and LineTerminator productions; the non-ASCII members are not
modelled). -/
def isJsWhitespace (c : Char) : Bool :=
  c == ' ' || c == '\t' || c == '\n' || c == '\r' ||
  c == Char.ofNat 11 || c == Char.ofNat 12

/-- JS `s.trim()`: strip leading and trailing whitespace. -/
def jsTrim (s : String) : String :=
  ⟨(((s.data.dropWhile isJsWhitespace).reverse.dropWhile
      isJsWhitespace).reverse)⟩

/-- `KeygenService.validateLicense` (KeygenService.ts).  Returns the response
object together with the list of network calls made (empty when an input
guard fails before the `fetch`). -/
def KeygenService.validateLicense (licenseKey : String)
    (http : HttpOutcome ValidateBody) :
    KeygenValidationResponse × List NetCall :=
  -- `if (!licenseKey || typeof licenseKey !== 'string')`: for a string
  -- argument this fires exactly on the empty string
  if licenseKey = "" then
    ({ valid := false, license := none, activations := [],
       message := some ("License key is required and must be a string"),
       code := some ("INVALID_INPUT") }, [])
  else
    let trimmedKey := jsTrim licenseKey
    if trimmedKey = "" then
      ({ valid := false, license := none, activations := [],
         message := some ("License key cannot be empty"),
         code := some ("EMPTY_KEY") }, [])
    else
      let calls := [NetCall.validateKey trimmedKey]
      match http with
      | .netThrow errMsg =>
        ({ valid := false, license := none, activations := [],
           message := some (errMsg.getD ("Unknown validation error")),
           code := some ("NETWORK_ERROR") }, calls)
      | .resp status body =>
        if httpOk status then
          match body with
          | .error m =>
            -- `await response.json()` threw; caught by the outer catch
            ({ valid := false, license := none, activations := [],
               message := some m,
               code := some ("NETWORK_ERROR") }, calls)
          | .ok b =>
            let isValid := b.metaValid == some true
            ({ valid := isValid,
               license := b.dataLicense,
               activations := b.includedActivations,
               message := some (if isValid then "License is valid"
                                else "License is invalid"),
               code := some (if isValid then "VALID" else "INVALID") }, calls)
        else
          if status = 401 then
            ({ valid := false, license := none, activations := [],
               message := some ("Invalid API credentials"),
               code := some ("UNAUTHORIZED") }, calls)
          else if status = 404 then
            ({ valid := false, license := none, activations := [],
               message := some ("License key not found"),
               code := some ("LICENSE_NOT_FOUND") }, calls)
          else
            ({ valid := false, license := none, activations := [],
               message := some ("License validation service unavailable"),
               code := some ("SERVICE_ERROR") }, calls)

/-- `KeygenService.activateLicense` (KeygenService.ts).  The machine
fingerprint is passed in (its computation reads host identity). -/
def KeygenService.activateLicense (licenseKey : String) (fingerprint : String)
    (http : HttpOutcome ActivateBody) :
    KeygenActivationResponse × List NetCall :=
  if licenseKey = "" then
    ({ success := false, activation := none,
       message := some ("License key is required and must be a string"),
       code := some ("INVALID_INPUT") }, [])
  else
    let calls := [NetCall.activateKey (jsTrim licenseKey) fingerprint]
    match http with
    | .netThrow errMsg =>
      ({ success := false, activation := none,
         message := some (errMsg.getD ("Unknown activation error")),
         code := some ("NETWORK_ERROR") }, calls)
    | .resp status body =>
      if httpOk status then
        match body with
        | .error m =>
          ({ success := false, activation := none,
             message := some m,
             code := some ("NETWORK_ERROR") }, calls)
        | .ok b =>
          ({ success := true,
             activation := b.dataActivation,
             message := some ("License activated successfully"),
             code := some ("ACTIVATED") }, calls)
      else
        if status = 422 then
          ({ success := false, activation := none,
             message := some ("License activation limit exceeded or already activated"),
             code := some ("ACTIVATION_LIMIT_EXCEEDED") }, calls)
        else if status = 404 then
          ({ success := false, activation := none,
             message := some ("License key not found"),
             code := some ("LICENSE_NOT_FOUND") }, calls)
        else
          ({ success := false, activation := none,
             message := some ("License activation failed"),
             code := some ("ACTIVATION_FAILED") }, calls)

/-- `License` of LicenseServiceKeygen.ts: the locally cached Entitlement. -/
structure License where
  key : String
  tier : String
  active : Bool
  features : List String
  activatedAt : String
  expiresAt : Option String
  email : Option String
  maxActivations : Option Nat
  currentActivations : Nat
deriving DecidableEq

/-- `LicenseStatus` of LicenseServiceKeygen.ts.  `mock` is declared optional
in the interface but both return sites set it to `false`. -/
structure LicenseStatus where
  tier : String
  active : Bool
  features : List String
  daysRemaining : Option Int
  activationsUsed : Nat
  maxActivations : Option Nat
  mock : Bool
deriving DecidableEq

/-- The record `cacheLicense` serializes to the cache file:
`{ ...license, cachedAt, version: '2.0.0-keygen' }`.  JSON round-tripping of
this record is faithful for these field types (absent optional fields are
dropped by `JSON.stringify` and read back as `undefined`). -/
structure CacheData where
  key : String
  tier : String
  active : Bool
  features : List String
  activatedAt : String
  expiresAt : Option String
  email : Option String
  maxActivations : Option Nat
  currentActivations : Nat
  cachedAt : String
  version : String
deriving DecidableEq

/-- State of the cache file on disk: absent, present but unreadable (read or
`JSON.parse` throws), or present with parseable content. -/
inductive CacheFile where
  | missing
  | malformed
  | parsed (d : CacheData)
deriving DecidableEq

/-- In-memory state of a `LicenseServiceKeygen` instance plus the cache file
it owns. -/
structure ManagerState where
  currentLicense : Option License
  licenseFile : CacheFile
deriving DecidableEq

/-- JS `x || undefined` on an optional string: the empty string is falsy. -/
def jsOrUndefinedStr (o : Option String) : Option String :=
  match o with
  | some "" => none
  | o => o

/-- JS `x || undefined` on an optional number: `0` is falsy. -/
def jsOrUndefinedNat (o : Option Nat) : Option Nat :=
  match o with
  | some 0 => none
  | o => o

/-- ASCII lowering, modelling JS `toLowerCase` on the ASCII range. -/
def charToLowerAscii (c : Char) : Char :=
  if 'A' ≤ c ∧ c ≤ 'Z' then Char.ofNat (c.toNat + 32) else c

/-- Whether `pat` occurs as a contiguous run inside `l`. -/
def hasInfixChars (pat : List Char) (l : List Char) : Bool :=
  match l with
  | [] => pat.isEmpty
  | _ :: tl => pat.isPrefixOf l || hasInfixChars pat tl

/-- JS `s.toLowerCase().includes('memory')` on an optional string
(`name?.` short-circuits to `undefined`, which is falsy). -/
def nameIncludesMemory (n : Option String) : Bool :=
  match n with
  | none => false
  | some s => hasInfixChars ("memory".data) (s.data.map charToLowerAscii)

/-- `determineTier` (LicenseServiceKeygen.ts): `metadata.tier` when truthy,
otherwise `'memory'` both when the name mentions memory and as the default. -/
def determineTier (kl : KeygenLicense) : String :=
  match kl.metaTier with
  | some t =>
    if t ≠ "" then t
    else if nameIncludesMemory kl.name then "memory" else "memory"
  | none =>
    if nameIncludesMemory kl.name then "memory" else "memory"

/-- The feature list of the `memory` tier. -/
def memoryTierFeatures : List String :=
  ["unlimited_memory", "unlimited_projects", "project_scanning",
   "memory_export", "persistent_memory", "aes_encryption", "priority_support"]

/-- `determineFeatures` (LicenseServiceKeygen.ts). -/
def determineFeatures (kl : KeygenLicense) : List String :=
  if determineTier kl = "memory" then memoryTierFeatures
  else
    match kl.metaFeatures with
    | some fs => fs
    | none => ["basic_memory", "limited_projects"]

/-- The cache record written by `cacheLicense`. -/
def toCacheData (license : License) (cachedAt : String) : CacheData :=
  { key := license.key, tier := license.tier, active := license.active,
    features := license.features, activatedAt := license.activatedAt,
    expiresAt := license.expiresAt, email := license.email,
    maxActivations := license.maxActivations,
    currentActivations := license.currentActivations,
    cachedAt := cachedAt, version := "2.0.0-keygen" }

/-- `cacheLicense` (LicenseServiceKeygen.ts).  `writeOk = false` models the
mkdir/write throwing; the error is caught and swallowed ("caching is not
critical"), leaving the file as it was. -/
def cacheLicense (st : ManagerState) (license : License) (now : String)
    (writeOk : Bool) : ManagerState :=
  if writeOk then
    { st with licenseFile := CacheFile.parsed (toCacheData license now) }
  else st

/-- `loadCachedLicense` (LicenseServiceKeygen.ts).  Returns the loaded
license (if any) and the cache file's state afterwards.  A file whose read
or parse throws is unlinked (the unlink is modelled as succeeding; an unlink
failure is caught and ignored by the source).  A file that parses but fails
the `version === '2.0.0-keygen' && cacheData.key` check is silently ignored
and left in place.  `cacheData.features || []` and
`cacheData.currentActivations || 0` are identities at these field types
(a JS array is truthy even when empty; `0 || 0` is `0`). -/
def loadCachedLicense (file : CacheFile) : Option License × CacheFile :=
  match file with
  | .missing => (none, .missing)
  | .malformed => (none, .missing)
  | .parsed d =>
    if d.version = "2.0.0-keygen" ∧ d.key ≠ "" then
      (some { key := d.key, tier := d.tier, active := d.active,
              features := d.features, activatedAt := d.activatedAt,
              expiresAt := d.expiresAt, email := d.email,
              maxActivations := d.maxActivations,
              currentActivations := d.currentActivations }, .parsed d)
    else (none, .parsed d)

/-- The `LicenseServiceKeygen` constructor: starts with no in-memory license
and immediately runs `loadCachedLicense` against the cache file. -/
def newManager (file : CacheFile) : ManagerState :=
  let loaded := loadCachedLicense file
  { currentLicense := loaded.1, licenseFile := loaded.2 }

/-- The message of the error `getCurrentLicense` throws when no license is
cached. -/
def noLicenseMessage : String :=
  "No active license found. Please run: codecontextpro activate <LICENSE_KEY>"

/-- `getCurrentLicense` (LicenseServiceKeygen.ts); the thrown error becomes
an `Except.error` carrying its message. -/
def getCurrentLicense (st : ManagerState) : Except String License :=
  match st.currentLicense with
  | none => .error noLicenseMessage
  | some l => .ok l

/-- `hasFeature` (LicenseServiceKeygen.ts). -/
def hasFeature (st : ManagerState) (feature : String) : Bool :=
  if feature = "" then false
  else
    match getCurrentLicense st with
    | .error _ => false
    | .ok license => license.active && license.features.contains feature

/-- Own enumerable and non-enumerable property names of `Object.prototype`
in a JS runtime: a plain object literal inherits these, so indexing the
operation-feature map with one of them yields a truthy non-string value. -/
def objectPrototypeProps : List String :=
  ["constructor", "hasOwnProperty", "isPrototypeOf", "propertyIsEnumerable",
   "toLocaleString", "toString", "valueOf", "__defineGetter__",
   "__defineSetter__", "__lookupGetter__", "__lookupSetter__", "__proto__"]

/-- Result of the JS lookup `operationFeatureMap[operation]`. -/
inductive MapLookup where
  | feature (f : String)
  | inherited
  | absent
deriving DecidableEq

/-- The `operationFeatureMap` object lookup inside `canPerformOperation`,
including the properties the object literal inherits from
`Object.prototype`. -/
def operationFeatureMap (operation : String) : MapLookup :=
  if operation = "remember" then .feature ("unlimited_memory")
  else if operation = "recall" then .feature ("unlimited_memory")
  else if operation = "scan" then .feature ("project_scanning")
  else if operation = "export" then .feature ("memory_export")
  else if operation = "sync" then .feature ("cloud_sync")
  else if objectPrototypeProps.contains operation then .inherited
  else .absent

/-- `canPerformOperation` (LicenseServiceKeygen.ts).  An inherited
`Object.prototype` value is truthy, so it is passed to `hasFeature`, whose
`typeof feature !== 'string'` guard rejects it. -/
def canPerformOperation (st : ManagerState) (operation : String) : Bool :=
  if operation = "" then false
  else
    match getCurrentLicense st with
    | .error _ => false
    | .ok license =>
      if !license.active then false
      else
        match operationFeatureMap operation with
        | .feature f => hasFeature st f
        | .inherited => false
        | .absent => true

/-- Milliseconds per day, the divisor in `getLicenseStatus`. -/
def msPerDay : Int := 1000 * 60 * 60 * 24

/-- `Math.ceil(a / b)` for integer `a` and positive integer `b`. -/
def jsMathCeilDiv (a b : Int) : Int := -((-a).fdiv b)

/-- `getLicenseStatus` (LicenseServiceKeygen.ts).  Date handling is made
explicit: `parseMs e` is `new Date(e).getTime()` and `nowMs` is
`new Date().getTime()` (exact integer arithmetic stands in for JS float
arithmetic on millisecond values).  `if (license.expiresAt)` is a JS
truthiness test, so an empty expiry string yields no `daysRemaining`. -/
def getLicenseStatus (st : ManagerState) (parseMs : String → Int)
    (nowMs : Int) : LicenseStatus :=
  match getCurrentLicense st with
  | .error _ =>
    { tier := "none", active := false, features := [], daysRemaining := none,
      activationsUsed := 0, maxActivations := none, mock := false }
  | .ok license =>
    let daysRemaining : Option Int :=
      match jsOrUndefinedStr license.expiresAt with
      | some e => some (jsMathCeilDiv (parseMs e - nowMs) msPerDay)
      | none => none
    { tier := license.tier, active := license.active,
      features := license.features, daysRemaining := daysRemaining,
      activationsUsed := license.currentActivations,
      maxActivations := license.maxActivations, mock := false }

/-- The Entitlement object built by `activateLicense` from a successful
validation (`new Date().toISOString()` is passed in as `now`). -/
def licenseFromValidation (trimmedKey : String) (kl : KeygenLicense)
    (now : String) : License :=
  { key := trimmedKey,
    tier := determineTier kl,
    active := kl.status == "active",
    features := determineFeatures kl,
    activatedAt := now,
    expiresAt := jsOrUndefinedStr kl.expiry,
    email := jsOrUndefinedStr kl.metaEmail,
    maxActivations := jsOrUndefinedNat kl.maxActivations,
    currentActivations := kl.activations }

/-- `LicenseServiceKeygen.activateLicense`.  Thrown errors become
`Except.error` carrying the rethrown message; the trailing list records the
network calls made.  The result of the machine-activation call is only
logged (a failure there is treated as "may already be activated"), so its
response value is dropped. -/
def LicenseServiceKeygen.activateLicense (st : ManagerState)
    (licenseKey : String) (valHttp : HttpOutcome ValidateBody)
    (actHttp : HttpOutcome ActivateBody) (fingerprint : String)
    (now : String) (writeOk : Bool) :
    (Except String License × ManagerState) × List NetCall :=
  if licenseKey = "" then
    ((.error ("License key is required and must be a string"), st), [])
  else
    let trimmedKey := jsTrim licenseKey
    if trimmedKey = "" then
      ((.error ("License key cannot be empty"), st), [])
    else
      let vres := KeygenService.validateLicense trimmedKey valHttp
      let validation := vres.1
      match validation.license, validation.valid with
      | some kl, true =>
        let ares := KeygenService.activateLicense trimmedKey fingerprint actHttp
        let license := licenseFromValidation trimmedKey kl now
        let st1 := cacheLicense st license now writeOk
        let st2 := { st1 with currentLicense := some license }
        ((.ok license, st2), vres.2 ++ ares.2)
      | _, _ =>
        ((.error ((jsOrUndefinedStr validation.message).getD
            ("License validation failed")), st), vres.2)

/-- `LicenseServiceKeygen.validateLicense`.  The `catch` branch of the
source (fall back to the cached `active` flag) is unreachable: the
`KeygenService` call converts every failure into a result value and
`cacheLicense` swallows its own errors, so nothing inside the `try` throws.
On any response with `valid=false` (including `NETWORK_ERROR`) the function
returns `false` without touching the state. -/
def LicenseServiceKeygen.validateLicense (st : ManagerState)
    (valHttp : HttpOutcome ValidateBody) (now : String) (writeOk : Bool) :
    (Bool × ManagerState) × List NetCall :=
  match st.currentLicense with
  | none => ((false, st), [])
  | some cur =>
    let vres := KeygenService.validateLicense cur.key valHttp
    let validation := vres.1
    match validation.license, validation.valid with
    | some kl, true =>
      let updated := { cur with
        active := kl.status == "active"
        currentActivations := kl.activations }
      let st1 := { st with currentLicense := some updated }
      let st2 := cacheLicense st1 updated now writeOk
      ((updated.active, st2), vres.2)
    | _, _ => ((false, st), vres.2)

/-- Modelled from the spec (§4.1): the reason code the spec assigns to each
remote-validation outcome — 401 to UNAUTHORIZED, 404 to LICENSE_NOT_FOUND,
any other non-2xx to SERVICE_ERROR, transport or parse failure to
NETWORK_ERROR, and on 2xx VALID or INVALID according to the nested
`meta.valid` flag (absence or false meaning INVALID). -/
def specValidateCode (http : HttpOutcome ValidateBody) : String :=
  match http with
  | .netThrow _ => "NETWORK_ERROR"
  | .resp status body =>
    if httpOk status then
      match body with
      | .error _ => "NETWORK_ERROR"
      | .ok b => if b.metaValid == some true then "VALID" else "INVALID"
    else if status = 401 then "UNAUTHORIZED"
    else if status = 404 then "LICENSE_NOT_FOUND"
    else "SERVICE_ERROR"

/-- Modelled from the spec (§4.1): on a 2xx response `valid` equals the
nested `meta.valid` flag with absence or false treated as invalid; every
other outcome is invalid. -/
def specValidateValid (http : HttpOutcome ValidateBody) : Bool :=
  match http with
  | .resp status (.ok b) => httpOk status && b.metaValid == some true
  | _ => false

/-- The manager's two pre-network input-validation failure messages: the
spec's `INVALID_INPUT` class (§7, malformed key before any network call). -/
def invalidInputMessages : List String :=
  ["License key is required and must be a string",
   "License key cannot be empty"]

/- Concrete fixtures used by witnesses and counterexamples. -/

/-- A license payload as the authority returns it for an active key. -/
def sampleKeygenLicense : KeygenLicense :=
  { id := "lic_1", key := "LIC-123", name := some ("Memory Tier"),
    status := "active", expiry := none, maxActivations := some 3,
    activations := 1, metaTier := none, metaEmail := none,
    metaFeatures := none }

/-- A cached Entitlement with `active = true` and the memory-tier feature
set. -/
def sampleLicense : License :=
  { key := "LIC-123", tier := "memory", active := true,
    features := memoryTierFeatures,
    activatedAt := "2025-01-01T00:00:00.000Z", expiresAt := none,
    email := none, maxActivations := some 3, currentActivations := 1 }

/-- A manager holding `sampleLicense`, cache file in sync. -/
def sampleState : ManagerState :=
  { currentLicense := some sampleLicense,
    licenseFile := CacheFile.parsed
      (toCacheData sampleLicense ("2025-01-01T00:00:00.000Z")) }

/-- A manager with no cached license and no cache file. -/
def freshState : ManagerState :=
  { currentLicense := none, licenseFile := CacheFile.missing }

/-- A 2xx validate-key body reporting `meta.valid = false` for a key the
authority still returns data for. -/
def invalidValBody : ValidateBody :=
  { metaValid := some false, dataLicense := some sampleKeygenLicense,
    includedActivations := [] }

/-- A 2xx validate-key body reporting `meta.valid = true`. -/
def validValBody : ValidateBody :=
  { metaValid := some true, dataLicense := some sampleKeygenLicense,
    includedActivations := [] }

/-- A cache file record carrying an unknown schema version. -/
def staleCacheData : CacheData :=
  { toCacheData sampleLicense ("2024-01-01T00:00:00.000Z") with
    version := "1.0.0" }

/-- An Entitlement whose key is the empty string (falsy in JS). -/
def emptyKeyLicense : License := { sampleLicense with key := "" }

/-- Write an Entitlement to the cache, then construct a fresh manager over
the resulting file: the round trip of C8. -/
def roundTripState (license : License) (cachedAt : String) : ManagerState :=
  newManager (CacheFile.parsed (toCacheData license cachedAt))

/-- C1: on a network-level validation failure (`NETWORK_ERROR`) the code does
not throw and leaves the cached `active` flag unchanged, but it returns
`false` instead of the cached `active` value (`true` here): the source's
cached-`active` fallback branch is unreachable because `KeygenService`
converts network failures into result values instead of throwing. -/
theorem validateLicense_networkError_returns_false :
    LicenseServiceKeygen.validateLicense sampleState
        (.netThrow (some ("fetch failed"))) ("2025-01-02T00:00:00.000Z") true
      = ((false, sampleState), [NetCall.validateKey ("LIC-123")])
    ∧ sampleLicense.active = true
    ∧ (KeygenService.validateLicense sampleLicense.key
        (.netThrow (some ("fetch failed")))).1.code
      = some ("NETWORK_ERROR") := by decide

/-- C2 counterexample: with a cached `active=true` Entitlement, a
validate-key response whose `meta.valid` is `false` does NOT transition the
Entitlement to `active=false`: the state is unchanged, `active` is still
`true` and `canPerformOperation "remember"` still returns `true`. -/
theorem validateLicense_metaInvalid_cex :
    (LicenseServiceKeygen.validateLicense sampleState
        (.resp 200 (.ok invalidValBody)) ("2025-01-02T00:00:00.000Z") true).1
      = (false, sampleState)
    ∧ ((LicenseServiceKeygen.validateLicense sampleState
        (.resp 200 (.ok invalidValBody)) ("2025-01-02T00:00:00.000Z")
        true).1.2.currentLicense.map License.active) = some true
    ∧ canPerformOperation
        (LicenseServiceKeygen.validateLicense sampleState
          (.resp 200 (.ok invalidValBody)) ("2025-01-02T00:00:00.000Z")
          true).1.2 ("remember") = true := by decide

/-- Helper: whenever the remote-client response has `valid = false`, the
manager-level refresh returns `false` and leaves the whole state as it
was. -/
theorem validateLicense_not_valid_leaves_state (st : ManagerState)
    (cur : License) (valHttp : HttpOutcome ValidateBody) (now : String)
    (writeOk : Bool) (hcur : st.currentLicense = some cur)
    (hval : (KeygenService.validateLicense cur.key valHttp).1.valid
      = false) :
    (LicenseServiceKeygen.validateLicense st valHttp now writeOk).1
      = (false, st) := by
  unfold LicenseServiceKeygen.validateLicense
  rw [hcur]
  rcases hl : (KeygenService.validateLicense cur.key valHttp).1.license
      with _ | kl <;> simp [hl, hval]

/-- Helper: a 2xx response whose body parses with `meta.valid` not `true`
yields a client result with `valid = false`, for every key. -/
theorem keygenValidate_metaInvalid_not_valid (key : String) (status : Nat)
    (b : ValidateBody) (hb : b.metaValid ≠ some true) :
    (KeygenService.validateLicense key (.resp status (.ok b))).1.valid
      = false := by
  have hbeq : (b.metaValid == some true) = false := by
    simpa using hb
  by_cases h1 : key = ""
  · simp [KeygenService.validateLicense, h1]
  · by_cases h2 : jsTrim key = ""
    · simp [KeygenService.validateLicense, h1, h2]
    · by_cases h3 : httpOk status = true
      · simp [KeygenService.validateLicense, h1, h2, h3, hbeq]
      · have e401 : httpOk 401 = false := by decide
        have e404 : httpOk 404 = false := by decide
        by_cases h4 : status = 401
        · subst h4
          simp [KeygenService.validateLicense, h1, h2, e401]
        · by_cases h5 : status = 404
          · subst h5
            simp [KeygenService.validateLicense, h1, h2, e404, h4]
          · have h3f : httpOk status = false := by
              simpa using h3
            simp [KeygenService.validateLicense, h1, h2, h3f, h4, h5]

/-- C2 (amended): a `validateLicense` call whose validate-key response has a
`meta.valid` flag other than `true` returns `false` and leaves the manager
state — the cached Entitlement and hence every `canPerformOperation`
answer — unchanged. -/
theorem validateLicense_metaInvalid_leaves_state (st : ManagerState)
    (cur : License) (status : Nat) (b : ValidateBody) (now : String)
    (writeOk : Bool) (hcur : st.currentLicense = some cur)
    (hb : b.metaValid ≠ some true) :
    (LicenseServiceKeygen.validateLicense st (.resp status (.ok b)) now
      writeOk).1 = (false, st) :=
  validateLicense_not_valid_leaves_state st cur (.resp status (.ok b)) now
    writeOk hcur (keygenValidate_metaInvalid_not_valid cur.key status b hb)

/-- Witness for `validateLicense_metaInvalid_leaves_state` at concrete
inputs. -/
theorem validateLicense_metaInvalid_leaves_state_witness :
    sampleState.currentLicense = some sampleLicense
    ∧ invalidValBody.metaValid ≠ some true
    ∧ (LicenseServiceKeygen.validateLicense sampleState
        (.resp 200 (.ok invalidValBody)) ("2025-01-02T00:00:00.000Z")
        true).1 = (false, sampleState) :=
  ⟨rfl, by decide,
    validateLicense_metaInvalid_leaves_state sampleState sampleLicense 200
      invalidValBody ("2025-01-02T00:00:00.000Z") true rfl (by decide)⟩

/-- C3: for a malformed key (empty after trimming, which covers the empty
and whitespace-only cases), `activateLicense` fails with one of the two
pre-network input-validation errors — the spec's `INVALID_INPUT` class —
leaves the state unchanged, and performs no network call. -/
theorem activateLicense_malformedKey_no_network (st : ManagerState)
    (key : String) (valHttp : HttpOutcome ValidateBody)
    (actHttp : HttpOutcome ActivateBody) (fp now : String) (writeOk : Bool)
    (h : jsTrim key = "") :
    ∃ m, LicenseServiceKeygen.activateLicense st key valHttp actHttp fp now
          writeOk = ((.error m, st), [])
        ∧ m ∈ invalidInputMessages := by
  by_cases hk : key = ""
  · refine ⟨"License key is required and must be a string", ?_, by decide⟩
    simp [LicenseServiceKeygen.activateLicense, hk]
  · refine ⟨"License key cannot be empty", ?_, by decide⟩
    simp [LicenseServiceKeygen.activateLicense, hk, h]

/-- Witness for `activateLicense_malformedKey_no_network` at a
whitespace-only key. -/
theorem activateLicense_malformedKey_no_network_witness :
    jsTrim ("   ") = ""
    ∧ ∃ m, LicenseServiceKeygen.activateLicense freshState ("   ")
          (.netThrow none) (.netThrow none) ("fp") ("t") true
        = ((.error m, freshState), []) ∧ m ∈ invalidInputMessages :=
  ⟨by decide,
    activateLicense_malformedKey_no_network freshState ("   ")
      (.netThrow none) (.netThrow none) ("fp") ("t") true (by decide)⟩

/-- C4: for every remote outcome, the client's validate-key result carries
exactly the reason code and `valid` flag the spec's closed mapping assigns
(401 to UNAUTHORIZED, 404 to LICENSE_NOT_FOUND, other non-2xx to
SERVICE_ERROR, transport or parse failure to NETWORK_ERROR, and on 2xx
`valid` mirrors `meta.valid` with absence or false giving INVALID). -/
theorem keygenValidate_matches_spec_mapping (key : String)
    (http : HttpOutcome ValidateBody) (h1 : key ≠ "")
    (h2 : jsTrim key ≠ "") :
    (KeygenService.validateLicense key http).1.code
        = some (specValidateCode http)
    ∧ (KeygenService.validateLicense key http).1.valid
        = specValidateValid http := by
  cases http with
  | netThrow m =>
    simp [KeygenService.validateLicense, specValidateCode, specValidateValid,
      h1, h2]
  | resp status body =>
    by_cases hok : httpOk status = true
    · cases body with
      | error m =>
        simp [KeygenService.validateLicense, specValidateCode,
          specValidateValid, h1, h2, hok]
      | ok b =>
        by_cases hv : (b.metaValid == some true) = true <;>
          simp [KeygenService.validateLicense, specValidateCode,
            specValidateValid, h1, h2, hok, hv]
    · have hok' : httpOk status = false := by
        simpa using hok
      have e401 : httpOk 401 = false := by decide
      have e404 : httpOk 404 = false := by decide
      by_cases h401 : status = 401
      · subst h401
        cases body <;>
          simp [KeygenService.validateLicense, specValidateCode,
            specValidateValid, h1, h2, e401]
      · by_cases h404 : status = 404
        · subst h404
          cases body <;>
            simp [KeygenService.validateLicense, specValidateCode,
              specValidateValid, h1, h2, e404, h401]
        · cases body <;>
            simp [KeygenService.validateLicense, specValidateCode,
              specValidateValid, h1, h2, hok', h401, h404]

/-- Witness for `keygenValidate_matches_spec_mapping` at a concrete key and
a 2xx `meta.valid=true` response. -/
theorem keygenValidate_matches_spec_mapping_witness :
    ("LIC-123" : String) ≠ ""
    ∧ jsTrim ("LIC-123") ≠ ""
    ∧ ((KeygenService.validateLicense ("LIC-123")
          (.resp 200 (.ok validValBody))).1.code
        = some (specValidateCode (.resp 200 (.ok validValBody)))
      ∧ (KeygenService.validateLicense ("LIC-123")
          (.resp 200 (.ok validValBody))).1.valid
        = specValidateValid (.resp 200 (.ok validValBody))) :=
  ⟨by decide, by decide,
    keygenValidate_matches_spec_mapping ("LIC-123")
      (.resp 200 (.ok validValBody)) (by decide) (by decide)⟩

/-- C5 counterexample: the empty operation name has no entry in the
operation-feature map, the cached Entitlement is active, yet
`canPerformOperation` returns `false` (the `!operation` input guard), so the
default-allow claim fails for it. -/
theorem canPerformOperation_emptyName_cex :
    operationFeatureMap ("") = MapLookup.absent
    ∧ sampleState.currentLicense.map License.active = some true
    ∧ canPerformOperation sampleState ("") = false := by decide

/-- C5 (amended): `canPerformOperation` returns `false` whenever no
Entitlement is cached or the cached one has `active=false`; and for every
non-empty operation name on which the map lookup yields nothing (neither a
mapped feature nor an `Object.prototype` property inherited by the JS object
literal), it returns `true` when `active=true`. -/
theorem canPerformOperation_policy (st : ManagerState) (op : String) :
    (st.currentLicense = none → canPerformOperation st op = false)
    ∧ (∀ l, st.currentLicense = some l → l.active = false →
        canPerformOperation st op = false)
    ∧ (∀ l, st.currentLicense = some l → l.active = true → op ≠ "" →
        operationFeatureMap op = MapLookup.absent →
        canPerformOperation st op = true) := by
  refine ⟨?_, ?_, ?_⟩
  · intro h
    by_cases hop : op = "" <;>
      simp [canPerformOperation, getCurrentLicense, h, hop]
  · intro l hl ha
    by_cases hop : op = "" <;>
      simp [canPerformOperation, getCurrentLicense, hl, ha, hop]
  · intro l hl ha hop hmap
    simp [canPerformOperation, getCurrentLicense, hl, ha, hop, hmap]

/-- Witness for `canPerformOperation_policy`: no license denies a mapped
operation; an active license default-allows an unmapped operation. -/
theorem canPerformOperation_policy_witness :
    canPerformOperation freshState ("remember") = false
    ∧ canPerformOperation sampleState ("status") = true :=
  ⟨(canPerformOperation_policy freshState ("remember")).1 rfl,
   (canPerformOperation_policy sampleState ("status")).2.2 sampleLicense rfl
     rfl (by decide) (by decide)⟩

/-- C6: when validate-key reports `meta.valid=true` for an active license
and the machine-activation call fails with HTTP 422
(`ACTIVATION_LIMIT_EXCEEDED`), `activateLicense` still builds the
Entitlement, persists it to the cache and returns it — no error is
raised. -/
theorem activateLicense_limitExceeded_still_activates (st : ManagerState)
    (key : String) (b : ValidateBody) (kl : KeygenLicense) (status : Nat)
    (abody : Except String ActivateBody) (fp now : String)
    (hne : key ≠ "") (hfix : jsTrim key = key)
    (hok : httpOk status = true) (hb : b.metaValid = some true)
    (hlic : b.dataLicense = some kl) (hstat : kl.status = "active") :
    (KeygenService.activateLicense key fp (.resp 422 abody)).1.code
        = some ("ACTIVATION_LIMIT_EXCEEDED")
    ∧ LicenseServiceKeygen.activateLicense st key (.resp status (.ok b))
        (.resp 422 abody) fp now true
      = ((.ok (licenseFromValidation key kl now),
          { currentLicense := some (licenseFromValidation key kl now),
            licenseFile := CacheFile.parsed
              (toCacheData (licenseFromValidation key kl now) now) }),
         [NetCall.validateKey key, NetCall.activateKey key fp])
    ∧ (licenseFromValidation key kl now).active = true := by
  have h422 : httpOk 422 = false := by decide
  refine ⟨?_, ?_, ?_⟩
  · simp [KeygenService.activateLicense, hne, h422]
  · simp [LicenseServiceKeygen.activateLicense,
      KeygenService.validateLicense, KeygenService.activateLicense,
      cacheLicense, hne, hfix, hok, hb, hlic, h422]
  · simp [licenseFromValidation, hstat]

/-- Witness for `activateLicense_limitExceeded_still_activates` at concrete
inputs. -/
theorem activateLicense_limitExceeded_still_activates_witness :
    (("LIC-123" : String) ≠ "" ∧ jsTrim ("LIC-123") = "LIC-123"
      ∧ httpOk 200 = true ∧ validValBody.metaValid = some true
      ∧ validValBody.dataLicense = some sampleKeygenLicense
      ∧ sampleKeygenLicense.status = "active")
    ∧ LicenseServiceKeygen.activateLicense freshState ("LIC-123")
        (.resp 200 (.ok validValBody))
        (.resp 422 (.ok { dataActivation := none })) ("fp")
        ("2025-01-02T00:00:00.000Z") true
      = ((.ok (licenseFromValidation ("LIC-123") sampleKeygenLicense
            ("2025-01-02T00:00:00.000Z")),
          { currentLicense := some (licenseFromValidation ("LIC-123")
              sampleKeygenLicense ("2025-01-02T00:00:00.000Z")),
            licenseFile := CacheFile.parsed
              (toCacheData (licenseFromValidation ("LIC-123")
                  sampleKeygenLicense ("2025-01-02T00:00:00.000Z"))
                ("2025-01-02T00:00:00.000Z")) }),
         [NetCall.validateKey ("LIC-123"),
          NetCall.activateKey ("LIC-123") ("fp")]) :=
  ⟨⟨by decide, by decide, by decide, by decide, by decide, by decide⟩,
    (activateLicense_limitExceeded_still_activates freshState ("LIC-123")
      validValBody sampleKeygenLicense 200
      (.ok { dataActivation := none }) ("fp") ("2025-01-02T00:00:00.000Z")
      (by decide) (by decide) (by decide) (by decide) (by decide)
      (by decide)).2.1⟩

/-- C7 counterexample: a cache file that parses but carries schema version
"1.0.0" is ignored — the manager starts unlicensed and `getCurrentLicense`
fails — but the stale file is NOT deleted, contrary to the claim. -/
theorem loadCachedLicense_unknownVersion_cex :
    loadCachedLicense (CacheFile.parsed staleCacheData)
      = (none, CacheFile.parsed staleCacheData)
    ∧ (newManager (CacheFile.parsed staleCacheData)).licenseFile
      ≠ CacheFile.missing
    ∧ getCurrentLicense (newManager (CacheFile.parsed staleCacheData))
      = Except.error noLicenseMessage :=
  ⟨by decide, by decide, rfl⟩

/-- C7 (amended): for every parseable cache record with an unknown schema
version, loading leaves the manager unlicensed (no in-memory Entitlement)
and `getCurrentLicense` fails with the no-license error, while the stale
file is left in place (only an unparseable file is deleted). -/
theorem loadCachedLicense_unknownVersion_unlicensed (d : CacheData)
    (h : d.version ≠ "2.0.0-keygen") :
    loadCachedLicense (CacheFile.parsed d) = (none, CacheFile.parsed d)
    ∧ getCurrentLicense (newManager (CacheFile.parsed d))
      = Except.error noLicenseMessage := by
  simp [loadCachedLicense, newManager, getCurrentLicense, h]

/-- Witness for `loadCachedLicense_unknownVersion_unlicensed` at the
concrete stale record. -/
theorem loadCachedLicense_unknownVersion_unlicensed_witness :
    staleCacheData.version ≠ "2.0.0-keygen"
    ∧ (loadCachedLicense (CacheFile.parsed staleCacheData)
        = (none, CacheFile.parsed staleCacheData)
      ∧ getCurrentLicense (newManager (CacheFile.parsed staleCacheData))
        = Except.error noLicenseMessage) :=
  ⟨by decide,
    loadCachedLicense_unknownVersion_unlicensed staleCacheData (by decide)⟩

/-- C8 counterexample: an Entitlement whose key is the empty string does not
survive the cache round trip — the load-side `cacheData.key` truthiness
check rejects it, so a fresh manager holds no Entitlement at all. -/
theorem cacheRoundTrip_emptyKey_cex :
    ManagerState.currentLicense
        (roundTripState emptyKeyLicense ("2025-01-01T00:00:00.000Z")) = none
    ∧ ManagerState.currentLicense
        (roundTripState emptyKeyLicense ("2025-01-01T00:00:00.000Z"))
      ≠ some emptyKeyLicense := by decide

/-- C8 (amended): for every Entitlement with a non-empty key, writing it to
the cache and loading the cache in a fresh manager yields an in-memory
Entitlement equal field-for-field to the one written (the cache-only
`cachedAt` and `version` fields are dropped). -/
theorem cacheRoundTrip_nonEmptyKey (license : License) (cachedAt : String)
    (h : license.key ≠ "") :
    (roundTripState license cachedAt).currentLicense = some license := by
  obtain ⟨k, t, a, f, aa, e, em, ma, ca⟩ := license
  simp only [License.mk.injEq] at h ⊢
  simp [roundTripState, newManager, loadCachedLicense, toCacheData, h]

/-- Witness for `cacheRoundTrip_nonEmptyKey` at the sample Entitlement. -/
theorem cacheRoundTrip_nonEmptyKey_witness :
    sampleLicense.key ≠ ""
    ∧ ManagerState.currentLicense
        (roundTripState sampleLicense ("2025-01-01T00:00:00.000Z"))
      = some sampleLicense :=
  ⟨by decide,
    cacheRoundTrip_nonEmptyKey sampleLicense ("2025-01-01T00:00:00.000Z")
      (by decide)⟩

/-- C9 counterexample: a successful activation whose cache write fails
(write error swallowed by `cacheLicense`) keeps the new in-memory
Entitlement while the cache file stays untouched: the mutation is neither
durably written nor discarded. -/
theorem activateLicense_writeFail_diverges_cex :
    (LicenseServiceKeygen.activateLicense freshState ("LIC-123")
        (.resp 200 (.ok validValBody))
        (.resp 200 (.ok { dataActivation := none })) ("fp")
        ("2025-01-02T00:00:00.000Z") false).1.1
      = Except.ok (licenseFromValidation ("LIC-123") sampleKeygenLicense
          ("2025-01-02T00:00:00.000Z"))
    ∧ (LicenseServiceKeygen.activateLicense freshState ("LIC-123")
        (.resp 200 (.ok validValBody))
        (.resp 200 (.ok { dataActivation := none })) ("fp")
        ("2025-01-02T00:00:00.000Z") false).1.2.currentLicense
      = some (licenseFromValidation ("LIC-123") sampleKeygenLicense
          ("2025-01-02T00:00:00.000Z"))
    ∧ (LicenseServiceKeygen.activateLicense freshState ("LIC-123")
        (.resp 200 (.ok validValBody))
        (.resp 200 (.ok { dataActivation := none })) ("fp")
        ("2025-01-02T00:00:00.000Z") false).1.2.licenseFile
      = CacheFile.missing :=
  ⟨rfl, by decide, by decide⟩

/-- C9 (amended): `activateLicense` leaves the state (cache file included)
untouched on every failure path — in particular it never writes the cache
before remote validation has succeeded — and when the cache write succeeds,
both mutating operations leave the cache file holding exactly the new
in-memory Entitlement; only a swallowed write failure lets memory and disk
diverge. -/
theorem mutation_cache_coherence (st : ManagerState) (key : String)
    (valHttp : HttpOutcome ValidateBody) (actHttp : HttpOutcome ActivateBody)
    (fp now : String) (writeOk : Bool) :
    (∀ m, (LicenseServiceKeygen.activateLicense st key valHttp actHttp fp
        now writeOk).1.1 = .error m →
      (LicenseServiceKeygen.activateLicense st key valHttp actHttp fp now
        writeOk).1.2 = st)
    ∧ (∀ L, writeOk = true →
        (LicenseServiceKeygen.activateLicense st key valHttp actHttp fp now
          writeOk).1.1 = .ok L →
        (LicenseServiceKeygen.activateLicense st key valHttp actHttp fp now
          writeOk).1.2
          = { currentLicense := some L,
              licenseFile := CacheFile.parsed (toCacheData L now) })
    ∧ (writeOk = true →
        (LicenseServiceKeygen.validateLicense st valHttp now writeOk).1.2
          = st
        ∨ ∃ L, (LicenseServiceKeygen.validateLicense st valHttp now
              writeOk).1.2
            = { currentLicense := some L,
                licenseFile := CacheFile.parsed (toCacheData L now) }) := by
  refine ⟨?_, ?_, ?_⟩
  · intro m hm
    by_cases hk : key = ""
    · simp [LicenseServiceKeygen.activateLicense, hk]
    · by_cases ht : jsTrim key = ""
      · simp [LicenseServiceKeygen.activateLicense, hk, ht]
      · revert hm
        unfold LicenseServiceKeygen.activateLicense
        simp only [hk, ht, if_neg, if_false]
        rcases hl : (KeygenService.validateLicense (jsTrim key)
            valHttp).1.license with _ | kl <;>
          rcases hv : (KeygenService.validateLicense (jsTrim key)
            valHttp).1.valid <;>
          simp [hl, hv]
  · intro L hw hm
    by_cases hk : key = ""
    · simp [LicenseServiceKeygen.activateLicense, hk] at hm
    · by_cases ht : jsTrim key = ""
      · simp [LicenseServiceKeygen.activateLicense, hk, ht] at hm
      · revert hm
        unfold LicenseServiceKeygen.activateLicense
        simp only [hk, ht, if_neg, if_false]
        rcases hl : (KeygenService.validateLicense (jsTrim key)
            valHttp).1.license with _ | kl <;>
          rcases hv : (KeygenService.validateLicense (jsTrim key)
            valHttp).1.valid <;>
          (simp [hl, hv, cacheLicense, hw]; try (intro h1; simp [← h1]))
  · intro hw
    rcases hc : st.currentLicense with _ | cur
    · left; simp [LicenseServiceKeygen.validateLicense, hc]
    · rcases hl : (KeygenService.validateLicense cur.key
          valHttp).1.license with _ | kl
      · left
        unfold LicenseServiceKeygen.validateLicense
        simp [hc, hl]
      · rcases hv : (KeygenService.validateLicense cur.key
            valHttp).1.valid
        · left
          unfold LicenseServiceKeygen.validateLicense
          simp [hc, hl, hv]
        · right
          refine ⟨{ cur with
            active := kl.status == "active"
            currentActivations := kl.activations }, ?_⟩
          unfold LicenseServiceKeygen.validateLicense
          simp [hc, hl, hv, cacheLicense, hw]

/-- Witness for `mutation_cache_coherence`: a successful activation with a
successful write leaves memory and disk in sync. -/
theorem mutation_cache_coherence_witness :
    (LicenseServiceKeygen.activateLicense freshState ("LIC-123")
        (.resp 200 (.ok validValBody))
        (.resp 200 (.ok { dataActivation := none })) ("fp")
        ("2025-01-02T00:00:00.000Z") true).1.2
      = { currentLicense := some (licenseFromValidation ("LIC-123")
            sampleKeygenLicense ("2025-01-02T00:00:00.000Z")),
          licenseFile := CacheFile.parsed (toCacheData
            (licenseFromValidation ("LIC-123") sampleKeygenLicense
              ("2025-01-02T00:00:00.000Z"))
            ("2025-01-02T00:00:00.000Z")) } :=
  (mutation_cache_coherence freshState ("LIC-123")
      (.resp 200 (.ok validValBody))
      (.resp 200 (.ok { dataActivation := none })) ("fp")
      ("2025-01-02T00:00:00.000Z") true).2.1
    (licenseFromValidation ("LIC-123") sampleKeygenLicense
      ("2025-01-02T00:00:00.000Z")) rfl rfl

/-- C10: `getLicenseStatus` is total (every throw site in the source is
caught), and with no cached Entitlement it returns the record with tier
"none", `active=false`, no features, zero activations and no
`daysRemaining` or `maxActivations`. -/
theorem getLicenseStatus_noLicense (st : ManagerState)
    (parseMs : String → Int) (nowMs : Int)
    (h : st.currentLicense = none) :
    getLicenseStatus st parseMs nowMs
      = { tier := "none", active := false, features := [],
          daysRemaining := none, activationsUsed := 0,
          maxActivations := none, mock := false } := by
  simp [getLicenseStatus, getCurrentLicense, h]

/-- Witness for `getLicenseStatus_noLicense` at the fresh manager. -/
theorem getLicenseStatus_noLicense_witness :
    freshState.currentLicense = none
    ∧ getLicenseStatus freshState (fun _ => 0) 0
      = { tier := "none", active := false, features := [],
          daysRemaining := none, activationsUsed := 0,
          maxActivations := none, mock := false } :=
  ⟨rfl, getLicenseStatus_noLicense freshState (fun _ => 0) 0 rfl⟩

end CodeContextKeygen
